import Mathlib

/-!
Shallow embedding of `src/smolagents/memory.py` (agent memory: step data
model, message reconstruction, critic-step grafting, memory container),
with theorems settling the spec claims about it.
-/

namespace Memory

/-- Dynamic Python values as they flow through the memory module. `obj` stands
for an arbitrary in-memory Python object with no native JSON representation
(e.g. a live `ChatMessage` instance or a lambda); the string is just a tag
identifying it. Lists and dicts model Python lists and string-keyed dicts. -/
inductive PyVal where
  | str : String → PyVal
  | int : Int → PyVal
  | bool : Bool → PyVal
  | pynone : PyVal
  | list : List PyVal → PyVal
  | dict : List (String × PyVal) → PyVal
  | obj : String → PyVal

mutual

/-- Modelled from the spec: `make_json_serializable` lives in
`smolagents/utils.py`, which is not part of the two source files given; the
spec (section 4.1) describes it as a recursive walk over containers that
preserves structure and substitutes a placeholder string for any leaf value
lacking a JSON representation, never raising. -/
def make_json_serializable : PyVal → PyVal
  | .str s => .str s
  | .int n => .int n
  | .bool b => .bool b
  | .pynone => .pynone
  | .list l => .list (makeJsonSerializableList l)
  | .dict d => .dict (makeJsonSerializableDict d)
  | .obj _ => .str ("<not serializable>")

def makeJsonSerializableList : List PyVal → List PyVal
  | [] => []
  | v :: vs => make_json_serializable v :: makeJsonSerializableList vs

def makeJsonSerializableDict : List (String × PyVal) → List (String × PyVal)
  | [] => []
  | (k, v) :: kvs => (k, make_json_serializable v) :: makeJsonSerializableDict kvs

end

mutual

/-- Whether `json.dumps` accepts the value: it raises `TypeError` exactly on
values containing a leaf with no JSON encoding (modelled by `PyVal.obj`). -/
def jsonSafe : PyVal → Bool
  | .str _ => true
  | .int _ => true
  | .bool _ => true
  | .pynone => true
  | .list l => jsonSafeList l
  | .dict d => jsonSafeDict d
  | .obj _ => false

def jsonSafeList : List PyVal → Bool
  | [] => true
  | v :: vs => jsonSafe v && jsonSafeList vs

def jsonSafeDict : List (String × PyVal) → Bool
  | [] => true
  | (_, v) :: kvs => jsonSafe v && jsonSafeDict kvs

end

/-- JSON encode/decode round trip: `json.loads(json.dumps(v))`, modelled
abstractly as failing exactly when the value has a non-representable leaf and
otherwise returning the value unchanged. -/
def jsonRoundTrip (v : PyVal) : Option PyVal :=
  if jsonSafe v then some v else none

mutual

/-- Python `str`/`repr` of a value, as used in
`"Calling tools:\n" + str([tc.dict() for tc in self.tool_calls])`. -/
def pyRepr : PyVal → String
  | .str s => "\x27" ++ s ++ "\x27"
  | .int n => toString n
  | .bool b => if b then "True" else "False"
  | .pynone => "None"
  | .list l => "[" ++ pyReprList l ++ "]"
  | .dict d => "\x7b" ++ pyReprDict d ++ "\x7d"
  | .obj tag => tag

def pyReprList : List PyVal → String
  | [] => ""
  | [v] => pyRepr v
  | v :: vs => pyRepr v ++ ", " ++ pyReprList vs

def pyReprDict : List (String × PyVal) → String
  | [] => ""
  | [(k, v)] => "\x27" ++ k ++ "\x27: " ++ pyRepr v
  | (k, v) :: kvs => "\x27" ++ k ++ "\x27: " ++ pyRepr v ++ ", " ++ pyReprDict kvs

end

/-- Modelled from the spec: `MessageRole` lives in `smolagents/models.py`,
which is not part of the given source files; the spec (section 3) fixes it as
the opaque enumeration SYSTEM, USER, ASSISTANT, TOOL_RESPONSE. `CriticStep`
emits its role as the plain string "assistant", which the rest of the system
identifies with ASSISTANT (a string-valued enum upstream). -/
inductive MessageRole where
  | system
  | user
  | assistant
  | toolResponse
deriving DecidableEq, Repr

/-- One content part of a message: `{"type": "text", "text": ...}` or
`{"type": "image", "image": ...}` (image refs are opaque strings here). -/
inductive ContentPart where
  | text : String → ContentPart
  | image : String → ContentPart
deriving DecidableEq, Repr

/-- Message content: ActionStep builds a list of content parts, the
`show_model_input_messages` echo passes the raw input-message list (raw dicts)
through as content, and CriticStep uses a plain string. -/
inductive MsgContent where
  | parts : List ContentPart → MsgContent
  | raw : List PyVal → MsgContent
  | str : String → MsgContent

/-- `Message` TypedDict: role plus content. -/
structure Msg where
  role : MessageRole
  content : MsgContent

/-- `ToolCall` dataclass: name, arguments (arbitrary value), id. -/
structure ToolCall where
  name : String
  arguments : PyVal
  id : String

/-- `ToolCall.dict`: `{id, type: "function", function: {name, arguments:
make_json_serializable(arguments)}}`. -/
def ToolCall.dict (tc : ToolCall) : PyVal :=
  .dict [("id", .str tc.id), ("type", .str ("function")),
    ("function", .dict [("name", .str tc.name),
      ("arguments", make_json_serializable tc.arguments)])]

/-- Modelled from the spec: `AgentError` lives in `smolagents/utils.py`, not
among the given source files; the spec (section 6) gives it a string form and
a record export. We carry the string form and render `dict()` as a flat
string-valued record. -/
structure AgentError where
  message : String
deriving DecidableEq, Repr

/-- The error's string form, `str(self.error)`. -/
def AgentError.toStr (e : AgentError) : String := e.message

/-- The error's record export, `self.error.dict()`. -/
def AgentError.dict (e : AgentError) : PyVal :=
  .dict [("type", .str ("AgentError")), ("message", .str e.message)]

/-- `ActionStep` dataclass fields, with the source's defaults (`None`
everywhere). Timing fields and the raw model output message hold arbitrary
dynamic values, as in the Python source. -/
structure ActionStep where
  model_input_messages : Option (List PyVal) := none
  tool_calls : Option (List ToolCall) := none
  start_time : PyVal := .pynone
  end_time : PyVal := .pynone
  step_number : PyVal := .pynone
  error : Option AgentError := none
  duration : PyVal := .pynone
  model_output_message : PyVal := .pynone
  model_output : Option String := none
  observations : Option String := none
  observations_images : Option (List String) := none
  action_output : PyVal := .pynone

/-- `ActionStep.dict`: the fixed-key record dump. `tool_calls` is rendered
through `ToolCall.dict` (empty list when falsy), `step_number` surfaces as
key "step", `error` is rendered or None, `action_output` is safe-serialized,
and `model_output_message` is passed through raw. -/
def ActionStep.dict (s : ActionStep) : List (String × PyVal) :=
  [("model_input_messages",
      match s.model_input_messages with
      | some l => .list l
      | none => .pynone),
   ("tool_calls", .list
      (match s.tool_calls with
       | some tcs => tcs.map ToolCall.dict
       | none => [])),
   ("start_time", s.start_time),
   ("end_time", s.end_time),
   ("step", s.step_number),
   ("error",
      match s.error with
      | some e => e.dict
      | none => .pynone),
   ("duration", s.duration),
   ("model_output_message", s.model_output_message),
   ("model_output",
      match s.model_output with
      | some t => .str t
      | none => .pynone),
   ("observations",
      match s.observations with
      | some t => .str t
      | none => .pynone),
   ("action_output", make_json_serializable s.action_output)]

/-- The fixed retry-guidance suffix appended after the error's string form. -/
def retryGuidance : String :=
  "\nNow let\x27s retry: take care not to repeat previous errors! If you have retried several times, try a completely different approach.\n"

/-- The text of the ASSISTANT tool-call dump message. -/
def toolCallDumpText (tcs : List ToolCall) : String :=
  "Calling tools:\n" ++ pyRepr (.list (tcs.map ToolCall.dict))

/-- The call-id line prepended to the error message: `"Call id: {id}\n"` when
`self.tool_calls` is truthy (non-None and non-empty), else `""`. -/
def errorCallIdLine (s : ActionStep) : String :=
  match s.tool_calls with
  | some (tc :: _) => "Call id: " ++ tc.id ++ "\n"
  | _ => ""

/-- The full text of the error TOOL_RESPONSE message. -/
def errorText (s : ActionStep) (e : AgentError) : String :=
  errorCallIdLine s ++ "Error:\n" ++ e.toStr ++ retryGuidance

/-- The error TOOL_RESPONSE message itself. -/
def errorMsg (s : ActionStep) (e : AgentError) : Msg :=
  ⟨.toolResponse, .parts [.text (errorText s e)]⟩

/-- First `if` block of `ActionStep.to_messages`: the SYSTEM echo of the raw
input-message list, emitted when `model_input_messages` is non-None and
`show_model_input_messages` holds. -/
def inputEchoMsgs (s : ActionStep) (show_model_input_messages : Bool) : List Msg :=
  match s.model_input_messages with
  | some l => if show_model_input_messages then [⟨.system, .raw l⟩] else []
  | none => []

/-- Second `if` block: the ASSISTANT model-output message, emitted when
`model_output` is non-None and not `summary_mode`; the text is stripped. -/
def modelOutputMsgs (s : ActionStep) (summary_mode : Bool) : List Msg :=
  match s.model_output with
  | some t => if summary_mode then [] else [⟨.assistant, .parts [.text t.trim]⟩]
  | none => []

/-- Third `if` block: the ASSISTANT tool-call dump, emitted whenever
`tool_calls` is non-None (even when the list is empty). -/
def toolCallMsgs (s : ActionStep) : List Msg :=
  match s.tool_calls with
  | some tcs => [⟨.assistant, .parts [.text (toolCallDumpText tcs)]⟩]
  | none => []

/-- The observation TOOL_RESPONSE message text,
`f"Call id: {self.tool_calls[0].id}\nObservation:\n{self.observations}"`. -/
def observationText (tcId obs : String) : String :=
  "Call id: " ++ tcId ++ "\nObservation:\n" ++ obs

/-- Error `if` block: the TOOL_RESPONSE error message, emitted when `error`
is non-None. -/
def errorMsgs (s : ActionStep) : List Msg :=
  match s.error with
  | some e => [errorMsg s e]
  | none => []

/-- Last `if` block: the USER message with the observed images, emitted when
`observations_images` is truthy (non-None and non-empty). -/
def imageMsgs (s : ActionStep) : List Msg :=
  match s.observations_images with
  | some (img :: rest) =>
      [⟨.user, .parts (.text ("Here are the observed images:") ::
        (img :: rest).map ContentPart.image)⟩]
  | _ => []

/-- `ActionStep.to_messages` as defined in the source (before the critic-step
patch): the five guarded blocks append in source order. Faithful points: the
observations branch subscripts `self.tool_calls[0]` unguarded, so it raises
`TypeError` when `tool_calls` is None and `IndexError` when it is the empty
list (the partially built message list is discarded with the exception); the
error branch guards its call-id line with the truthiness of
`self.tool_calls`. -/
def ActionStep.to_messages (s : ActionStep)
    (summary_mode : Bool) (show_model_input_messages : Bool) :
    Except String (List Msg) :=
  match s.observations with
  | some obs =>
      match s.tool_calls with
      | some (tc :: _) =>
          .ok (inputEchoMsgs s show_model_input_messages
            ++ modelOutputMsgs s summary_mode ++ toolCallMsgs s
            ++ [⟨.toolResponse, .parts [.text (observationText tc.id obs)]⟩]
            ++ errorMsgs s ++ imageMsgs s)
      | some [] => .error ("IndexError: list index out of range")
      | none => .error ("TypeError: \x27NoneType\x27 object is not subscriptable")
  | none =>
      .ok (inputEchoMsgs s show_model_input_messages
        ++ modelOutputMsgs s summary_mode ++ toolCallMsgs s
        ++ errorMsgs s ++ imageMsgs s)

/-- Python truthiness of a dynamic value, as used by `if self.model_output_message:`
in `CriticStep.to_messages`: None, empty containers, empty string, zero and
False are falsy; any other object is truthy. -/
def pyTruthy : PyVal → Bool
  | .str s => !s.isEmpty
  | .int n => n ≠ 0
  | .bool b => b
  | .pynone => false
  | .list l => !l.isEmpty
  | .dict d => !d.isEmpty
  | .obj _ => true

/-- `CriticStep` fields as set by its `__init__` (timings held as dynamic
values; `feedback` defaults to the empty string, `accepted` to False,
`model_output_message` to None). -/
structure CriticStep where
  start_time : PyVal := .pynone
  end_time : PyVal := .pynone
  duration : PyVal := .pynone
  model_input_messages : List PyVal := []
  model_output_message : PyVal := .pynone
  feedback : String := ""
  accepted : Bool := false

/-- The summary-mode feedback rendering:
`self.feedback[:200] + "..." if len(self.feedback) > 200 else self.feedback`. -/
def criticSummaryFeedback (fb : String) : String :=
  if fb.length > 200 then fb.take 200 ++ "..." else fb

/-- `CriticStep.to_messages`: in summary mode, one assistant message with the
accept/reject tag and the (possibly truncated) feedback; otherwise one
assistant message with the full feedback when `self.model_output_message` is
truthy, else no message. The role here is the plain string "assistant" in the
source, identified with ASSISTANT. -/
def CriticStep.to_messages (c : CriticStep) (summary_mode : Bool) : List Msg :=
  if summary_mode then
    [⟨.assistant, .str ("[Critic " ++ (if c.accepted then "ACCEPTED" else "REJECTED")
      ++ "] " ++ criticSummaryFeedback c.feedback)⟩]
  else if pyTruthy c.model_output_message then
    [⟨.assistant, .str ("[Critic Review] " ++ c.feedback)⟩]
  else
    []

/-- The dataclass fields declared by `MemoryStep`: the `@dataclass` decorator
is applied to a class body with no field annotations, so its field list is
empty. -/
def memoryStepDataclassFields : List String := []

/-- The dataclass fields `dataclasses.asdict` sees on a `CriticStep` instance:
`CriticStep` is not itself decorated with `@dataclass`, so the lookup of
`__dataclass_fields__` finds only the (empty) list inherited from
`MemoryStep`; the attributes set by `CriticStep.__init__` are invisible to it. -/
def criticStepDataclassFields : List String := memoryStepDataclassFields

/-- The runtime attribute table of a `CriticStep` instance, as `getattr`
would see it. -/
def CriticStep.getattr (c : CriticStep) : String → PyVal := fun f =>
  if f = "start_time" then c.start_time
  else if f = "end_time" then c.end_time
  else if f = "duration" then c.duration
  else if f = "model_input_messages" then .list c.model_input_messages
  else if f = "model_output_message" then c.model_output_message
  else if f = "feedback" then .str c.feedback
  else if f = "accepted" then .bool c.accepted
  else .pynone

/-- The inherited `MemoryStep.dict`, i.e. `dataclasses.asdict(self)`, applied
to a `CriticStep`: one entry per declared dataclass field. -/
def CriticStep.dict (c : CriticStep) : List (String × PyVal) :=
  criticStepDataclassFields.map (fun f => (f, c.getattr f))

/-- An `ActionStep` as it exists after `patch_action_step()` has installed the
extension: the wrapped `__init__` guarantees a `critic_steps` attribute,
defaulting to the empty list. -/
structure PatchedActionStep where
  base : ActionStep
  critic_steps : List CriticStep := []

/-- `to_messages_with_critic_steps`, the method installed by one call to
`patch_action_step()`: it calls the previous implementation as
`original_to_messages(self, summary_mode)` — note that
`show_model_input_messages` is neither accepted nor forwarded, so the base
runs with its default `False` — and then, when `critic_steps` is truthy,
extends the result with each critic step's messages in list order. -/
def to_messages_with_critic_steps (s : PatchedActionStep) (summary_mode : Bool) :
    Except String (List Msg) := do
  let messages ← s.base.to_messages summary_mode false
  if s.critic_steps.isEmpty then
    return messages
  else
    return messages ++ (s.critic_steps.map (fun c => c.to_messages summary_mode)).flatten

/-- The method installed by a second call to `patch_action_step()`: its
`original_to_messages` is now `to_messages_with_critic_steps` from the first
call, so the second wrapper calls through to the first (which already appends
the critic messages) and then appends the critic messages again. -/
def to_messages_double_patched (s : PatchedActionStep) (summary_mode : Bool) :
    Except String (List Msg) := do
  let messages ← to_messages_with_critic_steps s summary_mode
  if s.critic_steps.isEmpty then
    return messages
  else
    return messages ++ (s.critic_steps.map (fun c => c.to_messages summary_mode)).flatten

/-- Calling the patched `to_messages` with an explicit
`show_model_input_messages` keyword argument: the installed wrapper's
signature is `(self, summary_mode=False)`, so Python rejects the call with a
`TypeError` before any body runs; without that keyword the wrapper executes. -/
def callPatchedToMessages (s : PatchedActionStep) (summary_mode : Bool)
    (show_model_input_messages : Option Bool) : Except String (List Msg) :=
  match show_model_input_messages with
  | some _ => .error
      ("TypeError: to_messages_with_critic_steps() got an unexpected keyword argument \x27show_model_input_messages\x27")
  | none => to_messages_with_critic_steps s summary_mode

/-- `TaskStep` dataclass. -/
structure TaskStep where
  task : String
  task_images : Option (List String) := none

/-- `TaskStep.dict` is the inherited `dataclasses.asdict(self)`: a field dump. -/
def TaskStep.dict (s : TaskStep) : List (String × PyVal) :=
  [("task", .str s.task),
   ("task_images",
      match s.task_images with
      | some l => .list (l.map PyVal.str)
      | none => .pynone)]

/-- `PlanningStep` dataclass (model output messages held as dynamic values). -/
structure PlanningStep where
  model_input_messages : List PyVal
  model_output_message_facts : PyVal
  facts : String
  model_output_message_plan : PyVal
  plan : String

/-- `PlanningStep.dict` is the inherited `dataclasses.asdict(self)`: a field
dump. -/
def PlanningStep.dict (s : PlanningStep) : List (String × PyVal) :=
  [("model_input_messages", .list s.model_input_messages),
   ("model_output_message_facts", s.model_output_message_facts),
   ("facts", .str s.facts),
   ("model_output_message_plan", s.model_output_message_plan),
   ("plan", .str s.plan)]

/-- `SystemPromptStep` dataclass. -/
structure SystemPromptStep where
  system_prompt : String

/-- The union of step kinds stored in `AgentMemory.steps`
(`List[Union[TaskStep, ActionStep, PlanningStep]]`). -/
inductive Step where
  | task : TaskStep → Step
  | action : ActionStep → Step
  | planning : PlanningStep → Step

/-- Dynamic dispatch of `step.dict()` over the union. -/
def Step.dict : Step → List (String × PyVal)
  | .task s => s.dict
  | .action s => s.dict
  | .planning s => s.dict

/-- `AgentMemory`: the system-prompt step plus the ordered step log. -/
structure AgentMemory where
  system_prompt : SystemPromptStep
  steps : List Step

/-- `AgentMemory.reset`: `self.steps = []`. -/
def AgentMemory.reset (m : AgentMemory) : AgentMemory :=
  { m with steps := [] }

/-- `AgentMemory.get_full_steps`: `[step.dict() for step in self.steps]`. -/
def AgentMemory.get_full_steps (m : AgentMemory) : List (List (String × PyVal)) :=
  m.steps.map Step.dict

/-- `AgentMemory.get_succinct_steps`: per step, the dict comprehension keeping
every key except "model_input_messages". -/
def AgentMemory.get_succinct_steps (m : AgentMemory) : List (List (String × PyVal)) :=
  m.steps.map (fun s => (Step.dict s).filter (fun kv => kv.1 ≠ "model_input_messages"))

/-- The raw input-message payload a step carries, if any: `ActionStep` and
`PlanningStep` have a `model_input_messages` field, `TaskStep` has none. -/
def Step.inputMessages : Step → Option (List PyVal)
  | .task _ => none
  | .action s => s.model_input_messages
  | .planning s => some s.model_input_messages

/-- The declared record keys of each step kind (for `ActionStep` the fixed
key set of its overridden `dict`, with `step_number` surfacing as "step"). -/
def Step.declaredKeys : Step → List String
  | .task _ => ["task", "task_images"]
  | .action _ =>
      ["model_input_messages", "tool_calls", "start_time", "end_time", "step",
       "error", "duration", "model_output_message", "model_output",
       "observations", "action_output"]
  | .planning _ =>
      ["model_input_messages", "model_output_message_facts", "facts",
       "model_output_message_plan", "plan"]

/-- Whether the fields of an `ActionStep` that its `dict` passes through raw
(without safe-serialization) are themselves JSON-representable: the input
messages, the timing values, the step number and the raw model output
message. Tool-call arguments and `action_output` are deliberately absent:
`dict` routes them through `make_json_serializable`. -/
def ActionStep.rawFieldsSafe (s : ActionStep) : Bool :=
  (match s.model_input_messages with
   | some l => jsonSafeList l
   | none => true)
  && jsonSafe s.start_time && jsonSafe s.end_time && jsonSafe s.step_number
  && jsonSafe s.duration && jsonSafe s.model_output_message

/-- The raw-passed-field condition for each step kind in the memory log. -/
def Step.rawFieldsSafe : Step → Bool
  | .task _ => true
  | .action s => s.rawFieldsSafe
  | .planning s =>
      jsonSafeList s.model_input_messages
      && jsonSafe s.model_output_message_facts
      && jsonSafe s.model_output_message_plan

/-- A 201-character feedback string, used to exercise the 200-character
truncation boundary. -/
def longFeedback : String := String.mk (List.replicate 201 'x')

mutual

/-- Safe-serialization always yields a JSON-representable value. -/
theorem jsonSafe_mjs : ∀ v : PyVal, jsonSafe (make_json_serializable v) = true
  | .str _ => rfl
  | .int _ => rfl
  | .bool _ => rfl
  | .pynone => rfl
  | .obj _ => rfl
  | .list l => by
      simp only [make_json_serializable, jsonSafe]
      exact jsonSafe_mjsList l
  | .dict d => by
      simp only [make_json_serializable, jsonSafe]
      exact jsonSafe_mjsDict d

theorem jsonSafe_mjsList : ∀ l : List PyVal, jsonSafeList (makeJsonSerializableList l) = true
  | [] => rfl
  | v :: vs => by
      simp only [makeJsonSerializableList, jsonSafeList, Bool.and_eq_true]
      exact ⟨jsonSafe_mjs v, jsonSafe_mjsList vs⟩

theorem jsonSafe_mjsDict :
    ∀ kvs : List (String × PyVal), jsonSafeDict (makeJsonSerializableDict kvs) = true
  | [] => rfl
  | (_, v) :: kvs => by
      simp only [makeJsonSerializableDict, jsonSafeDict, Bool.and_eq_true]
      exact ⟨jsonSafe_mjs v, jsonSafe_mjsDict kvs⟩

end

/-- A rendered tool call is JSON-representable (its arguments go through
safe-serialization, everything else is strings). -/
theorem jsonSafe_toolCallDict (tc : ToolCall) : jsonSafe (ToolCall.dict tc) = true := by
  simp [ToolCall.dict, jsonSafe, jsonSafeDict, jsonSafe_mjs]

/-- A list of rendered tool calls is JSON-representable. -/
theorem jsonSafeList_map_toolCallDict :
    ∀ tcs : List ToolCall, jsonSafeList (tcs.map ToolCall.dict) = true
  | [] => rfl
  | tc :: tcs => by
      simp only [List.map, jsonSafeList, Bool.and_eq_true]
      exact ⟨jsonSafe_toolCallDict tc, jsonSafeList_map_toolCallDict tcs⟩

/-- The observation text and the error text of one ActionStep can never
coincide: after the shared call-id prefix one continues with "Observation:"
and the other with "Error:". -/
theorem observationText_ne_errorText (i o e2 r : String) :
    observationText i o ≠ ("Call id: " ++ i ++ "\n") ++ "Error:\n" ++ e2 ++ r := by
  intro h
  have hd := congrArg String.data h
  simp only [observationText, String.data_append, List.append_assoc] at hd
  have h2 := List.append_cancel_left (List.append_cancel_left hd)
  simp at h2

/-- Every message the input-echo block emits has role SYSTEM. -/
theorem role_of_mem_inputEchoMsgs {s : ActionStep} {b : Bool} {m : Msg}
    (h : m ∈ inputEchoMsgs s b) : m.role = .system := by
  unfold inputEchoMsgs at h
  split at h
  · split at h
    · rw [List.mem_singleton.mp h]
    · simp at h
  · simp at h

/-- Every message the model-output block emits has role ASSISTANT. -/
theorem role_of_mem_modelOutputMsgs {s : ActionStep} {b : Bool} {m : Msg}
    (h : m ∈ modelOutputMsgs s b) : m.role = .assistant := by
  unfold modelOutputMsgs at h
  split at h
  · split at h
    · simp at h
    · rw [List.mem_singleton.mp h]
  · simp at h

/-- Every message the tool-call-dump block emits has role ASSISTANT. -/
theorem role_of_mem_toolCallMsgs {s : ActionStep} {m : Msg}
    (h : m ∈ toolCallMsgs s) : m.role = .assistant := by
  unfold toolCallMsgs at h
  split at h
  · rw [List.mem_singleton.mp h]
  · simp at h

/-- Every message the image block emits has role USER. -/
theorem role_of_mem_imageMsgs {s : ActionStep} {m : Msg}
    (h : m ∈ imageMsgs s) : m.role = .user := by
  unfold imageMsgs at h
  split at h
  · rw [List.mem_singleton.mp h]
  · simp at h

/-- Claim C2: for an ActionStep with `tool_calls = None` and
`observations = "42"`, the claim says `to_messages()` returns a TOOL_RESPONSE
with the observation text and no call-id line; the code instead subscripts
`self.tool_calls[0]` unguarded and raises `TypeError`. This theorem evaluates
the embedded code at the failing input. -/
theorem C2_observations_without_tool_calls_raises :
    ActionStep.to_messages { observations := some ("42") } false false
      = .error ("TypeError: \x27NoneType\x27 object is not subscriptable") := rfl

/-- Claim C3: the claim says `to_messages(show_model_input_messages=True)`
succeeds after the module-level extension install and front-loads a SYSTEM
echo message. The installed wrapper `to_messages_with_critic_steps` has
signature `(self, summary_mode=False)`, so the call raises `TypeError` for
every ActionStep; this theorem evaluates that call at a step whose
`model_input_messages` is set. -/
theorem C3_patched_show_model_input_messages_raises :
    callPatchedToMessages
      { base := { model_input_messages := some [.dict [("role", .str ("user")), ("content", .str ("hi"))]] } }
      false (some true)
      = .error ("TypeError: to_messages_with_critic_steps() got an unexpected keyword argument \x27show_model_input_messages\x27") := rfl

/-- Claim C7: `reset()` empties `steps`, leaves `system_prompt` unchanged,
and a subsequent `get_full_steps()` returns the empty sequence. -/
theorem C7_reset_clears_steps_keeps_system_prompt (m : AgentMemory) :
    (m.reset).system_prompt = m.system_prompt ∧
    (m.reset).steps = [] ∧
    (m.reset).get_full_steps = [] :=
  ⟨rfl, rfl, rfl⟩

/-- Claim C10: `CriticStep` declares no dataclass fields of its own and is not
itself decorated `@dataclass`, so the `asdict`-based `dict()` inherited from
`MemoryStep` sees only the empty inherited field list and returns the empty
mapping for every CriticStep, whatever its feedback, accepted flag, timings
and message attributes hold. -/
theorem C10_critic_dict_is_empty (c : CriticStep) : CriticStep.dict c = [] := rfl

/-- With `show_model_input_messages = false` the echo block emits nothing. -/
theorem inputEchoMsgs_false (s : ActionStep) : inputEchoMsgs s false = [] := by
  unfold inputEchoMsgs
  split <;> simp

/-- In summary mode the model-output block emits nothing. -/
theorem modelOutputMsgs_summary (s : ActionStep) : modelOutputMsgs s true = [] := by
  unfold modelOutputMsgs
  split <;> simp

/-- Without observation images the image block emits nothing. -/
theorem imageMsgs_none {s : ActionStep} (h : s.observations_images = none) :
    imageMsgs s = [] := by
  unfold imageMsgs
  rw [h]

/-- Claim C1 counterexample: an ActionStep (all base fields at their
defaults) holding exactly two critic steps, rendered through the method left
in place by two calls to `patch_action_step()`: the result carries each
critic message twice — four critic messages, not two — because the second
wrap calls through to the first (which already appends) and then appends
again. -/
theorem C1_counterexample_double_install_double_appends :
    to_messages_double_patched
      { base := {}, critic_steps := [{ accepted := true, feedback := "good" }, { feedback := "bad" }] } true
      = .ok [⟨.assistant, .str ("[Critic ACCEPTED] good")⟩,
             ⟨.assistant, .str ("[Critic REJECTED] bad")⟩,
             ⟨.assistant, .str ("[Critic ACCEPTED] good")⟩,
             ⟨.assistant, .str ("[Critic REJECTED] bad")⟩] := rfl

/-- Claim C1 amended: installing the extension once and rendering an
ActionStep holding exactly two critic steps (in summary mode, where each
critic step renders to exactly one message) appends exactly two critic
messages after the base messages; a second install is not idempotent and
appends them again (see the counterexample). -/
theorem C1_amended_single_install_appends_once
    (s : PatchedActionStep) (c1 c2 : CriticStep) (base_msgs : List Msg)
    (hc : s.critic_steps = [c1, c2])
    (hb : s.base.to_messages true false = .ok base_msgs) :
    to_messages_with_critic_steps s true
      = .ok (base_msgs ++ (c1.to_messages true ++ c2.to_messages true)) ∧
    (c1.to_messages true).length = 1 ∧
    (c2.to_messages true).length = 1 := by
  refine ⟨?_, by simp [CriticStep.to_messages], by simp [CriticStep.to_messages]⟩
  unfold to_messages_with_critic_steps
  rw [hb, hc]
  simp [Except.bind]

/-- Witness for C1: the amended theorem applied to a concrete step with two
critic steps and an empty base rendering. -/
theorem C1_amended_witness :
    to_messages_with_critic_steps
      { base := {}, critic_steps := [{ accepted := true, feedback := "good" }, { feedback := "bad" }] } true
      = .ok (([] : List Msg) ++
          (CriticStep.to_messages { accepted := true, feedback := "good" } true
            ++ CriticStep.to_messages { feedback := "bad" } true)) ∧
    (CriticStep.to_messages { accepted := true, feedback := "good" } true).length = 1 ∧
    (CriticStep.to_messages { feedback := "bad" } true).length = 1 :=
  C1_amended_single_install_appends_once _ _ _ [] rfl rfl

/-- Claim C4 counterexample: the step the claim describes (model output, one
tool call, observations, two critic steps, `summary_mode=True`, after the
extension install) renders to four messages, not five: the ASSISTANT
model-output message the claim lists first is omitted, because the source
emits it only when not in summary mode. -/
theorem C4_counterexample_no_model_output_in_summary :
    to_messages_with_critic_steps
      { base := { tool_calls := some [⟨"search", .str ("q"), "tc_1"⟩],
                  model_output := some ("out"), observations := some ("obs") },
        critic_steps := [{ accepted := true, feedback := "ok" }, { feedback := "no" }] } true
      = .ok [⟨.assistant, .parts [.text (toolCallDumpText [⟨"search", .str ("q"), "tc_1"⟩])]⟩,
             ⟨.toolResponse, .parts [.text (observationText "tc_1" "obs")]⟩,
             ⟨.assistant, .str ("[Critic ACCEPTED] ok")⟩,
             ⟨.assistant, .str ("[Critic REJECTED] no")⟩] := rfl

/-- Claim C4 amended: for every ActionStep (after the extension install) with
model output set, exactly one tool call, observations set, no error, no
observation images, and two critic steps (first accepted, second rejected),
`to_messages(summary_mode=True)` yields exactly, in order:
ASSISTANT(tool-call dump), TOOL_RESPONSE(observation),
ASSISTANT("[Critic ACCEPTED] ..."), ASSISTANT("[Critic REJECTED] ...") — the
model-output message is omitted in summary mode; every critic message comes
after every base message, in critic-step order. -/
theorem C4_amended_summary_order
    (s : PatchedActionStep) (tc : ToolCall) (out obs : String) (c1 c2 : CriticStep)
    (_h1 : s.base.model_output = some out)
    (h2 : s.base.tool_calls = some [tc])
    (h3 : s.base.observations = some obs)
    (h5 : s.base.error = none)
    (h6 : s.base.observations_images = none)
    (h7 : s.critic_steps = [c1, c2])
    (h8 : c1.accepted = true)
    (h9 : c2.accepted = false) :
    to_messages_with_critic_steps s true
      = .ok [⟨.assistant, .parts [.text (toolCallDumpText [tc])]⟩,
             ⟨.toolResponse, .parts [.text (observationText tc.id obs)]⟩,
             ⟨.assistant, .str ("[Critic ACCEPTED] " ++ criticSummaryFeedback c1.feedback)⟩,
             ⟨.assistant, .str ("[Critic REJECTED] " ++ criticSummaryFeedback c2.feedback)⟩] := by
  unfold to_messages_with_critic_steps ActionStep.to_messages
  rw [h3, h2, inputEchoMsgs_false, modelOutputMsgs_summary, imageMsgs_none h6]
  unfold toolCallMsgs errorMsgs
  rw [h2, h5, h7]
  simp [Except.bind, CriticStep.to_messages, h8, h9]

/-- Witness for C4: the amended theorem applied to a concrete step. -/
theorem C4_amended_witness :
    to_messages_with_critic_steps
      { base := { tool_calls := some [⟨"search", .str ("q"), "tc_9"⟩],
                  model_output := some ("thought"), observations := some ("result") },
        critic_steps := [{ accepted := true, feedback := "fine" }, { feedback := "redo" }] } true
      = .ok [⟨.assistant, .parts [.text (toolCallDumpText [⟨"search", .str ("q"), "tc_9"⟩])]⟩,
             ⟨.toolResponse, .parts [.text (observationText "tc_9" "result")]⟩,
             ⟨.assistant, .str ("[Critic ACCEPTED] " ++ criticSummaryFeedback "fine")⟩,
             ⟨.assistant, .str ("[Critic REJECTED] " ++ criticSummaryFeedback "redo")⟩] :=
  C4_amended_summary_order _ _ "thought" "result" _ _ rfl rfl rfl rfl rfl rfl rfl rfl

/-- Claim C8: a CriticStep with feedback longer than 200 characters renders
in summary mode to exactly one ASSISTANT message tagged ACCEPTED or REJECTED
by the flag, carrying the first 200 characters of the feedback plus an
ellipsis; in full mode the complete feedback appears verbatim after
"[Critic Review] " when the model output message is present (truthy), and no
message is produced otherwise. -/
theorem C8_critic_feedback_truncation (c : CriticStep) (h : c.feedback.length > 200) :
    c.to_messages true
      = [⟨.assistant, .str ("[Critic " ++ (if c.accepted then "ACCEPTED" else "REJECTED")
          ++ "] " ++ (c.feedback.take 200 ++ "..."))⟩] ∧
    (pyTruthy c.model_output_message = true →
      c.to_messages false = [⟨.assistant, .str ("[Critic Review] " ++ c.feedback)⟩]) ∧
    (pyTruthy c.model_output_message = false →
      c.to_messages false = []) := by
  refine ⟨?_, fun ht => ?_, fun ht => ?_⟩
  · simp [CriticStep.to_messages, criticSummaryFeedback, if_pos h]
  · simp [CriticStep.to_messages, ht]
  · simp [CriticStep.to_messages, ht]

/-- A list of plain strings is JSON-representable. -/
theorem jsonSafeList_map_str : ∀ l : List String, jsonSafeList (l.map PyVal.str) = true
  | [] => rfl
  | _ :: l => by
      simp only [List.map, jsonSafeList, Bool.and_eq_true]
      exact ⟨rfl, jsonSafeList_map_str l⟩

/-- Claim C5 counterexample: an ActionStep whose `model_output_message` holds
a non-serializable object. `dict()` passes that field through raw (only
tool-call arguments and `action_output` are safe-serialized), so the JSON
encode step of the round trip raises. -/
theorem C5_counterexample_raw_model_output_message :
    jsonRoundTrip (.dict (ActionStep.dict { model_output_message := .obj ("ChatMessage object") }))
      = none := rfl

/-- Claim C5 amended: for every step in the memory log, `dict()` succeeds and
its result survives the JSON round trip with every declared key preserved,
provided the fields the dump passes through raw (input messages, timing
values, step number, raw model output messages) are JSON-representable —
tool-call arguments and `action_output` may be arbitrary, since those two are
routed through safe-serialization. -/
theorem C5_amended_roundtrip_with_safe_raw_fields (s : Step) (h : s.rawFieldsSafe = true) :
    jsonRoundTrip (.dict (Step.dict s)) = some (.dict (Step.dict s)) ∧
    (Step.dict s).map Prod.fst = s.declaredKeys := by
  constructor
  · unfold jsonRoundTrip
    rw [if_pos ?_]
    show jsonSafe (.dict (Step.dict s)) = true
    cases s with
    | task t =>
        cases ht : t.task_images <;>
          simp [Step.dict, TaskStep.dict, jsonSafe, jsonSafeDict, ht, jsonSafeList_map_str]
    | action a =>
        simp only [Step.rawFieldsSafe, ActionStep.rawFieldsSafe, Bool.and_eq_true] at h
        obtain ⟨⟨⟨⟨⟨hm, hst⟩, het⟩, hsn⟩, hd⟩, hmo⟩ := h
        cases hmim : a.model_input_messages <;>
        cases htc : a.tool_calls <;>
        cases herr : a.error <;>
        cases hout : a.model_output <;>
        cases hobs : a.observations <;>
          simp_all [Step.dict, ActionStep.dict, jsonSafe, jsonSafeDict, jsonSafeList,
            AgentError.dict, jsonSafe_mjs, jsonSafeList_map_toolCallDict]
    | planning p =>
        simp only [Step.rawFieldsSafe, Bool.and_eq_true] at h
        obtain ⟨⟨hm, hf⟩, hp⟩ := h
        simp_all [Step.dict, PlanningStep.dict, jsonSafe, jsonSafeDict]
  · cases s <;>
      simp [Step.dict, Step.declaredKeys, TaskStep.dict, ActionStep.dict, PlanningStep.dict]

/-- Witness for C5: a concrete ActionStep whose tool-call arguments and
action output are non-serializable objects but whose raw-passed fields are
representable. -/
theorem C5_witness :
    jsonRoundTrip (.dict (Step.dict (.action
      { tool_calls := some [⟨"run", .obj ("lambda"), "id1"⟩], action_output := .obj ("DataFrame") })))
      = some (.dict (Step.dict (.action
      { tool_calls := some [⟨"run", .obj ("lambda"), "id1"⟩], action_output := .obj ("DataFrame") }))) ∧
    (Step.dict (.action
      { tool_calls := some [⟨"run", .obj ("lambda"), "id1"⟩], action_output := .obj ("DataFrame") })).map Prod.fst
      = Step.declaredKeys (.action
      { tool_calls := some [⟨"run", .obj ("lambda"), "id1"⟩], action_output := .obj ("DataFrame") }) :=
  C5_amended_roundtrip_with_safe_raw_fields _ rfl

/-- Claim C6: `get_full_steps` is the per-step unredacted record in order;
`get_succinct_steps` is, per step in order, the same record with exactly the
entries keyed "model_input_messages" removed (every other entry preserved, in
order, by the filter characterization); no succinct record ever contains that
key; and whenever a step carries input messages, its full record contains
them under that key. -/
theorem C6_succinct_redacts_full_preserves (m : AgentMemory) :
    m.get_full_steps = m.steps.map Step.dict ∧
    (∀ i : Nat, m.get_succinct_steps[i]? =
      (m.steps[i]?).map (fun s => (Step.dict s).filter (fun kv => kv.1 ≠ "model_input_messages"))) ∧
    (∀ r ∈ m.get_succinct_steps, ∀ kv ∈ r, kv.1 ≠ "model_input_messages") ∧
    (∀ s : Step, ∀ l, s.inputMessages = some l →
      ("model_input_messages", PyVal.list l) ∈ Step.dict s) := by
  refine ⟨rfl, ?_, ?_, ?_⟩
  · intro i
    simp [AgentMemory.get_succinct_steps]
  · intro r hr kv hkv
    simp only [AgentMemory.get_succinct_steps, List.mem_map] at hr
    obtain ⟨s, _, rfl⟩ := hr
    exact of_decide_eq_true (List.mem_filter.mp hkv).2
  · intro s l hl
    cases s with
    | task t => simp [Step.inputMessages] at hl
    | action a =>
        simp only [Step.inputMessages] at hl
        simp [Step.dict, ActionStep.dict, hl]
    | planning p =>
        simp only [Step.inputMessages, Option.some.injEq] at hl
        subst hl
        simp [Step.dict, PlanningStep.dict]

/-- Witness for C6: the theorem applied to a concrete memory, extracting that
a planning step's full record carries its input messages. -/
theorem C6_witness :
    ("model_input_messages", PyVal.list [.str ("hello")]) ∈
      Step.dict (.planning { model_input_messages := [.str ("hello")],
                             model_output_message_facts := .pynone, facts := "f",
                             model_output_message_plan := .pynone, plan := "p" }) :=
  (C6_succinct_redacts_full_preserves { system_prompt := ⟨"sys"⟩, steps := [] }).2.2.2 _ _ rfl

/-- The error message is never one of the echo / model-output / tool-call /
image messages: its role is TOOL_RESPONSE, theirs are not. -/
theorem errorMsg_not_mem_other_blocks (s : ActionStep) (e : AgentError) (b1 b2 : Bool) :
    errorMsg s e ∉ inputEchoMsgs s b1 ∧ errorMsg s e ∉ modelOutputMsgs s b2 ∧
    errorMsg s e ∉ toolCallMsgs s ∧ errorMsg s e ∉ imageMsgs s := by
  refine ⟨fun h => ?_, fun h => ?_, fun h => ?_, fun h => ?_⟩
  · have := role_of_mem_inputEchoMsgs h
    simp [errorMsg] at this
  · have := role_of_mem_modelOutputMsgs h
    simp [errorMsg] at this
  · have := role_of_mem_toolCallMsgs h
    simp [errorMsg] at this
  · have := role_of_mem_imageMsgs h
    simp [errorMsg] at this

/-- The observation message of a step with a first tool call `tc` is never
equal to the error message of the same step. -/
theorem obsMsg_ne_errorMsg (s : ActionStep) (e : AgentError) (tc : ToolCall)
    (rest : List ToolCall) (obs : String) (htc : s.tool_calls = some (tc :: rest)) :
    (⟨.toolResponse, .parts [.text (observationText tc.id obs)]⟩ : Msg) ≠ errorMsg s e := by
  intro h
  have hline : errorCallIdLine s = "Call id: " ++ tc.id ++ "\n" := by
    unfold errorCallIdLine
    rw [htc]
  have htxt : observationText tc.id obs = errorText s e := by
    have := congrArg Msg.content h
    simp only [errorMsg, MsgContent.parts.injEq, List.cons.injEq,
      ContentPart.text.injEq] at this
    exact this.1
  rw [errorText, hline] at htxt
  exact observationText_ne_errorText tc.id obs e.toStr retryGuidance
    (by simpa [String.append_assoc] using htxt)

/-- Claim C9: for every ActionStep with `error` set whose `to_messages` call
returns (see C2 for the one input class where it raises, which is the
observations branch's fault, not the error branch's), the returned list
carries exactly one occurrence of the error TOOL_RESPONSE message; its text
is the call-id line (present exactly when tool calls exist and are
non-empty, naming the first tool call's id — so with a tool call of id
"tc_1" the text begins with "Call id: tc_1") followed by "Error:\n", the
error's string form, and the fixed retry-guidance suffix. The AgentError
value itself is rendered, never raised. -/
theorem C9_error_rendered_exactly_once (s : ActionStep) (e : AgentError)
    (sm shm : Bool) (msgs : List Msg)
    (he : s.error = some e)
    (hok : s.to_messages sm shm = .ok msgs) :
    (∃ pre post, msgs = pre ++ errorMsg s e :: post ∧
      errorMsg s e ∉ pre ∧ errorMsg s e ∉ post) ∧
    errorText s e = errorCallIdLine s ++ "Error:\n" ++ e.toStr ++ retryGuidance ∧
    (∀ tc rest, s.tool_calls = some (tc :: rest) →
      ∃ t, errorText s e = ("Call id: " ++ tc.id) ++ t) ∧
    (s.tool_calls = none ∨ s.tool_calls = some [] →
      errorText s e = "Error:\n" ++ e.toStr ++ retryGuidance) := by
  have herr : errorMsgs s = [errorMsg s e] := by
    unfold errorMsgs
    rw [he]
  refine ⟨?_, rfl, ?_, ?_⟩
  · unfold ActionStep.to_messages at hok
    cases hobs : s.observations with
    | none =>
        rw [hobs, herr] at hok
        obtain ⟨h1, h2, h3, h4⟩ := errorMsg_not_mem_other_blocks s e shm sm
        refine ⟨inputEchoMsgs s shm ++ (modelOutputMsgs s sm ++ toolCallMsgs s),
          imageMsgs s, ?_, ?_, h4⟩
        · simp only [Except.ok.injEq] at hok
          rw [← hok]
          simp [List.append_assoc]
        · simp only [List.mem_append]
          rintro (h | h | h) <;> [exact h1 h; exact h2 h; exact h3 h]
    | some obs =>
        rw [hobs] at hok
        cases htc : s.tool_calls with
        | none => rw [htc] at hok; cases hok
        | some tcs =>
            cases tcs with
            | nil => rw [htc] at hok; cases hok
            | cons tc rest =>
                rw [htc, herr] at hok
                simp only [Except.ok.injEq] at hok
                obtain ⟨h1, h2, h3, h4⟩ := errorMsg_not_mem_other_blocks s e shm sm
                refine ⟨inputEchoMsgs s shm ++ (modelOutputMsgs s sm ++ (toolCallMsgs s ++
                  [⟨.toolResponse, .parts [.text (observationText tc.id obs)]⟩])),
                  imageMsgs s, ?_, ?_, h4⟩
                · rw [← hok]
                  simp [List.append_assoc]
                · simp only [List.mem_append, List.mem_singleton]
                  rintro (h | h | h | h)
                  · exact h1 h
                  · exact h2 h
                  · exact h3 h
                  · exact obsMsg_ne_errorMsg s e tc rest obs htc h.symm
  · intro tc rest htc
    refine ⟨"\nError:\n" ++ (e.toStr ++ retryGuidance), ?_⟩
    unfold errorText errorCallIdLine
    rw [htc]
    simp [String.append_assoc]
  · intro htc
    unfold errorText errorCallIdLine
    rcases htc with h | h <;> rw [h] <;> simp

/-- Witness for C9: the theorem applied to a concrete ActionStep with one
tool call of id "tc_1", an error, and observations; the prefix fact is
extracted at that input. -/
theorem C9_witness :
    ∃ t, errorText { tool_calls := some [⟨"run", .pynone, "tc_1"⟩],
                     observations := some ("obs"),
                     error := some ⟨"boom"⟩ } ⟨"boom"⟩
      = ("Call id: " ++ "tc_1") ++ t :=
  (C9_error_rendered_exactly_once
      { tool_calls := some [⟨"run", .pynone, "tc_1"⟩],
        observations := some ("obs"), error := some ⟨"boom"⟩ }
      ⟨"boom"⟩ false false _ rfl rfl).2.2.1 _ [] rfl

set_option maxRecDepth 100000 in
/-- Witness for C8: a concrete CriticStep with a 201-character feedback and a
truthy model output message. -/
theorem C8_witness :
    CriticStep.to_messages
      { feedback := longFeedback, accepted := true,
        model_output_message := .dict [("content", .str ("m"))] } true
      = [⟨.assistant, .str ("[Critic " ++ (if true then "ACCEPTED" else "REJECTED")
          ++ "] " ++ (longFeedback.take 200 ++ "..."))⟩] :=
  (C8_critic_feedback_truncation _ (by unfold longFeedback; decide)).1

end Memory
